import Mathlib

/-!
# Composite platform-chain state: lifecycle ordering and error propagation

A shallow embedding of `vms/platformvm/state/state.go`.

The file under study only wires two collaborators together (the metadata store
and the transactions store) and sequences their lifecycle methods.  Both
collaborators are interface values in the source, so they are taken here as
records of state-passing functions; everything that `state.go` itself does
(argument plumbing, the `if err != nil { return err }` early returns, the order
of the two halves) is translated line by line.

Conventions:

* a Go `error` is an `Option E` (`none` is `nil`);
* the mutable world reachable from a composite is a `Stores` record: the shared
  base database, the metadata store's own state, the transactions store's own
  state.  The metadata store was built from the base database only, so its
  methods act on `(db, metadata)`; the transactions store was built from the
  base database and the metadata store, so its methods act on
  `(db, metadata, txs)`;
* every method of the composite also returns the list of sub-store calls it
  made (with each call's returned error), in program order;
* a nil `*genesis.State` makes `SyncGenesis` panic while its first call's
  arguments are evaluated, that is before any sub-store method runs.
-/

namespace platformvm

/-- Go `error` interface value: `none` is `nil`, `some e` a non-nil error. -/
abbrev error (E : Type) := Option E

namespace genesis

/-- Modelled from the spec: the parsed genesis payload `genesis.State`, whose
declaration lives in package `genesis`.  `state.go` reads exactly the five
fields below and only passes them on. -/
structure State (U V C : Type) where
  UTXOs : List U
  Validators : List V
  Chains : List C
  Timestamp : Nat
  InitialSupply : Nat
  deriving DecidableEq, Repr

end genesis

namespace metadata

/-- Modelled from the spec: the part of interface `metadata.DataState` that
`state.go` calls, `SyncGenesis(blockID, timestamp, initialSupply) -> error`,
`LoadMetadata() -> error`, `WriteMetadata() -> error`,
`CloseMetadata() -> error`.  Each method may read and update the base database
and the metadata store's own state. -/
structure DataState (E ID DB M : Type) where
  SyncGenesis : ID → Nat → Nat → DB × M → error E × (DB × M)
  LoadMetadata : DB × M → error E × (DB × M)
  WriteMetadata : DB × M → error E × (DB × M)
  CloseMetadata : DB × M → error E × (DB × M)

end metadata

namespace transactions

/-- Modelled from the spec: the part of interface `transactions.TxState` that
`state.go` calls, `SyncGenesis(utxos, validators, subChains) -> error`,
`LoadTxs() -> error`, `WriteTxs() -> error`, `CloseTxs() -> error`.  The
transactions store holds the base database and a reference to the metadata
store, so each method may read and update all three components. -/
structure TxState (E U V C DB M T : Type) where
  SyncGenesis : List U → List V → List C → DB × M × T → error E × (DB × M × T)
  LoadTxs : DB × M × T → error E × (DB × M × T)
  WriteTxs : DB × M × T → error E × (DB × M × T)
  CloseTxs : DB × M × T → error E × (DB × M × T)

end transactions

/-- The struct `state`: two embedded interface values. -/
structure state (TxS DS : Type) where
  TxState : TxS
  DataState : DS

/-- The mutable world behind one composite. -/
structure Stores (DB M T : Type) where
  db : DB
  metadata : M
  txs : T
  deriving DecidableEq, Repr

/-- A sub-store method invocation, with the arguments it received. -/
inductive Call (ID U V C : Type) where
  | DataState_SyncGenesis (genesisBlkID : ID) (timestamp initialSupply : Nat)
  | TxState_SyncGenesis (utxos : List U) (validators : List V) (chains : List C)
  | LoadMetadata
  | LoadTxs
  | WriteMetadata
  | WriteTxs
  | CloseTxs
  | CloseMetadata
  deriving DecidableEq, Repr

/-- One entry of the call record: the call and the error it returned. -/
structure Event (E ID U V C : Type) where
  call : Call ID U V C
  err : error E
  deriving DecidableEq, Repr

/-- How a method of the composite ends: it returns an `error`, or it panics. -/
inductive Outcome (E : Type) where
  | returned (err : error E)
  | panicked
  deriving DecidableEq, Repr

/-- Result of one method of the composite: how it ended, the sub-store calls it
made in order, and the world it left. -/
structure Ret (E ID U V C DB M T : Type) where
  out : Outcome E
  trace : List (Event E ID U V C)
  stores : Stores DB M T
  deriving DecidableEq, Repr

section Methods

variable {E ID U V C DB M T : Type}

/-- Run one metadata-store method on the world and record the call. -/
def invokeData (f : DB × M → error E × (DB × M)) (c : Call ID U V C)
    (w : Stores DB M T) : error E × Event E ID U V C × Stores DB M T :=
  let r := f (w.db, w.metadata)
  (r.1, ⟨c, r.1⟩, ⟨r.2.1, r.2.2, w.txs⟩)

/-- Run one transactions-store method on the world and record the call. -/
def invokeTx (f : DB × M × T → error E × (DB × M × T)) (c : Call ID U V C)
    (w : Stores DB M T) : error E × Event E ID U V C × Stores DB M T :=
  let r := f (w.db, w.metadata, w.txs)
  (r.1, ⟨c, r.1⟩, ⟨r.2.1, r.2.2.1, r.2.2.2⟩)

/-- Method `(*state).SyncGenesis`, `state.go` lines 97-107. -/
def state.SyncGenesis
    (s : state (transactions.TxState E U V C DB M T) (metadata.DataState E ID DB M))
    (genesisBlkID : ID) (genesisState : Option (genesis.State U V C))
    (w : Stores DB M T) : Ret E ID U V C DB M T :=
  match genesisState with
  | none => ⟨.panicked, [], w⟩
  | some g =>
    let r1 := invokeData
      (s.DataState.SyncGenesis genesisBlkID g.Timestamp g.InitialSupply)
      (.DataState_SyncGenesis genesisBlkID g.Timestamp g.InitialSupply) w
    match r1.1 with
    | some e => ⟨.returned (some e), [r1.2.1], r1.2.2⟩
    | none =>
      let r2 := invokeTx
        (s.TxState.SyncGenesis g.UTXOs g.Validators g.Chains)
        (.TxState_SyncGenesis g.UTXOs g.Validators g.Chains) r1.2.2
      ⟨.returned r2.1, [r1.2.1, r2.2.1], r2.2.2⟩

/-- Method `(*state).Load`, `state.go` lines 109-117. -/
def state.Load
    (s : state (transactions.TxState E U V C DB M T) (metadata.DataState E ID DB M))
    (w : Stores DB M T) : Ret E ID U V C DB M T :=
  let r1 := invokeData s.DataState.LoadMetadata .LoadMetadata w
  match r1.1 with
  | some e => ⟨.returned (some e), [r1.2.1], r1.2.2⟩
  | none =>
    let r2 := invokeTx s.TxState.LoadTxs .LoadTxs r1.2.2
    ⟨.returned r2.1, [r1.2.1, r2.2.1], r2.2.2⟩

/-- Method `(*state).Write`, `state.go` lines 119-126. -/
def state.Write
    (s : state (transactions.TxState E U V C DB M T) (metadata.DataState E ID DB M))
    (w : Stores DB M T) : Ret E ID U V C DB M T :=
  let r1 := invokeData s.DataState.WriteMetadata .WriteMetadata w
  match r1.1 with
  | some e => ⟨.returned (some e), [r1.2.1], r1.2.2⟩
  | none =>
    let r2 := invokeTx s.TxState.WriteTxs .WriteTxs r1.2.2
    ⟨.returned r2.1, [r1.2.1, r2.2.1], r2.2.2⟩

/-- Method `(*state).Close`, `state.go` lines 128-136. -/
def state.Close
    (s : state (transactions.TxState E U V C DB M T) (metadata.DataState E ID DB M))
    (w : Stores DB M T) : Ret E ID U V C DB M T :=
  let r1 := invokeTx s.TxState.CloseTxs .CloseTxs w
  match r1.1 with
  | some e => ⟨.returned (some e), [r1.2.1], r1.2.2⟩
  | none =>
    let r2 := invokeData s.DataState.CloseMetadata .CloseMetadata r1.2.2
    ⟨.returned r2.1, [r1.2.1, r2.2.1], r2.2.2⟩

/-- The four orchestration operations of interface `State`, as a caller issues
them. -/
inductive Op (ID U V C : Type) where
  | SyncGenesis (genesisBlkID : ID) (genesisState : Option (genesis.State U V C))
  | Load
  | Write
  | Close
  deriving DecidableEq, Repr

/-- Dispatch of one operation to the method that implements it. -/
def state.exec
    (s : state (transactions.TxState E U V C DB M T) (metadata.DataState E ID DB M))
    (op : Op ID U V C) (w : Stores DB M T) : Ret E ID U V C DB M T :=
  match op with
  | .SyncGenesis b g => s.SyncGenesis b g w
  | .Load => s.Load w
  | .Write => s.Write w
  | .Close => s.Close w

/-- One completed operation call: the operation, how it ended, the sub-store
calls it made. -/
structure Step (E ID U V C : Type) where
  op : Op ID U V C
  out : Outcome E
  trace : List (Event E ID U V C)
  deriving DecidableEq, Repr

/-- A caller issuing a sequence of operation calls on one composite, whatever
each call returns. -/
def state.run
    (s : state (transactions.TxState E U V C DB M T) (metadata.DataState E ID DB M)) :
    List (Op ID U V C) → Stores DB M T → List (Step E ID U V C) × Stores DB M T
  | [], w => ([], w)
  | op :: ops, w =>
    let r := s.exec op w
    let rest := state.run s ops r.stores
    (⟨op, r.out, r.trace⟩ :: rest.1, rest.2)

end Methods

section Construction

variable {E DB Reg Cfg Ctx Gauge Calc H TxS DS : Type}

/-- Modelled from the spec: the three sub-store constructors that `state.go`
calls, `metadata.NewState`, `transactions.NewState` and
`transactions.NewMeteredTransactionsState`, declared in packages `metadata`
and `transactions`.  A constructor allocates a fresh instance, so each one
threads the process state `H` in which instances live; only the metered
transactions constructor has an `error` result. -/
structure Packages (E DB Reg Cfg Ctx Gauge Calc H TxS DS : Type) where
  metadata_NewState : DB → H → DS × H
  transactions_NewState :
    DB → DS → Cfg → Ctx → Gauge → Gauge → Calc → H → TxS × H
  transactions_NewMeteredTransactionsState :
    DB → DS → Reg → Cfg → Ctx → Gauge → Gauge → Calc → H → (TxS × error E) × H

/-- Function `New`, `state.go` lines 55-71.  The returned `State` interface
value is `&state{...}`, a non-nil pointer, written `some`. -/
def New (pkg : Packages E DB Reg Cfg Ctx Gauge Calc H TxS DS)
    (baseDB : DB) (cfg : Cfg) (ctx : Ctx) (localStake totalStake : Gauge)
    (rewards : Calc) (h : H) : Option (state TxS DS) × H :=
  let metadata := pkg.metadata_NewState baseDB h
  let txState := pkg.transactions_NewState baseDB metadata.1 cfg ctx
    localStake totalStake rewards metadata.2
  (some ⟨txState.1, metadata.1⟩, txState.2)

/-- Function `NewMetered`, `state.go` lines 73-90.  The composite is built and
returned whatever `err` is. -/
def NewMetered (pkg : Packages E DB Reg Cfg Ctx Gauge Calc H TxS DS)
    (baseDB : DB) (metrics : Reg) (cfg : Cfg) (ctx : Ctx)
    (localStake totalStake : Gauge) (rewards : Calc) (h : H) :
    (Option (state TxS DS) × error E) × H :=
  let metadata := pkg.metadata_NewState baseDB h
  let r := pkg.transactions_NewMeteredTransactionsState baseDB metadata.1 metrics
    cfg ctx localStake totalStake rewards metadata.2
  ((some ⟨r.1.1, metadata.1⟩, r.1.2), r.2)

end Construction

/-! ## Vocabulary of the specification -/

section SpecVocabulary

variable {E ID U V C : Type}

/-- The two sub-store halves of an operation, in the order the specification
gives them: metadata before transactions for genesis sync, load and write,
transactions before metadata for close.  A genesis sync with a nil payload has
no halves. -/
def Op.halves : Op ID U V C → List (Call ID U V C)
  | .SyncGenesis b (some g) =>
    [.DataState_SyncGenesis b g.Timestamp g.InitialSupply,
     .TxState_SyncGenesis g.UTXOs g.Validators g.Chains]
  | .SyncGenesis _ none => []
  | .Load => [.LoadMetadata, .LoadTxs]
  | .Write => [.WriteMetadata, .WriteTxs]
  | .Close => [.CloseTxs, .CloseMetadata]

/-- The operation's pointer argument, if it has one, is not nil. -/
def Op.nonNil : Op ID U V C → Bool
  | .SyncGenesis _ none => false
  | _ => true

/-- The caller asked for a genesis sync. -/
def Op.isSyncGenesis : Op ID U V C → Bool
  | .SyncGenesis _ _ => true
  | _ => false

/-- The call is the metadata store's genesis sync. -/
def Call.isDataSync : Call ID U V C → Bool
  | .DataState_SyncGenesis _ _ _ => true
  | _ => false

/-- The call is the transactions store's genesis sync. -/
def Call.isTxSync : Call ID U V C → Bool
  | .TxState_SyncGenesis _ _ _ => true
  | _ => false

/-- The step is a `Load` that returned nil. -/
def Step.loadSucceeded (st : Step E ID U V C) : Bool :=
  match st.op, st.out with
  | .Load, .returned none => true
  | _, _ => false

/-- Some sub-store genesis sync ran during the step. -/
def Step.performsGenesisSync (st : Step E ID U V C) : Bool :=
  st.trace.any fun ev => ev.call.isDataSync || ev.call.isTxSync

/-- Number of metadata-store genesis syncs over a whole history. -/
def dataSyncs (h : List (Step E ID U V C)) : Nat :=
  (h.map fun st => st.trace.countP fun ev => ev.call.isDataSync).sum

/-- Number of transactions-store genesis syncs over a whole history. -/
def txSyncs (h : List (Step E ID U V C)) : Nat :=
  (h.map fun st => st.trace.countP fun ev => ev.call.isTxSync).sum

/-- No step after a successful `Load` performs a sub-store genesis sync. -/
def noSyncAfterLoad : List (Step E ID U V C) → Bool
  | [] => true
  | st :: rest =>
    (!st.loadSucceeded || rest.all fun later => !later.performsGenesisSync)
      && noSyncAfterLoad rest

/-- Invariant I1 read on a history: each sub-store's genesis sync is performed
at most once, and never after a `Load` that succeeded. -/
def I1 (h : List (Step E ID U V C)) : Bool :=
  decide (dataSyncs h ≤ 1) && decide (txSyncs h ≤ 1) && noSyncAfterLoad h

/-- The sub-store calls of a whole history, in order. -/
def calls : List (Step E ID U V C) → List (Call ID U V C)
  | [] => []
  | st :: rest => st.trace.map Event.call ++ calls rest

/-- Number of `SyncGenesis` calls the caller issued. -/
def callerSyncs (h : List (Step E ID U V C)) : Nat :=
  h.countP fun st => st.op.isSyncGenesis

/-- The caller never issued `SyncGenesis` after a `Load` that succeeded. -/
def noSyncCallAfterLoad : List (Step E ID U V C) → Bool
  | [] => true
  | st :: rest =>
    (!st.loadSucceeded || rest.all fun later => !later.op.isSyncGenesis)
      && noSyncCallAfterLoad rest

/-- What one completed call contributes to the genesis-sync counts: nothing
unless the caller asked for `SyncGenesis`, and then at most one sync per
sub-store. -/
def Step.bounded (st : Step E ID U V C) : Prop :=
  st.trace.countP (fun ev => ev.call.isDataSync)
    ≤ (if st.op.isSyncGenesis then 1 else 0) ∧
  st.trace.countP (fun ev => ev.call.isTxSync)
    ≤ (if st.op.isSyncGenesis then 1 else 0) ∧
  (st.performsGenesisSync = true → st.op.isSyncGenesis = true)

end SpecVocabulary

section SubStoreCalls

variable {E ID U V C DB M T : Type}

/-- What it is for a sub-store call to be made on a world: the named method of
the metadata store, respectively of the transactions store, is applied to the
components that store can reach, giving the method's own result and the world
it leaves. -/
def state.perform
    (s : state (transactions.TxState E U V C DB M T) (metadata.DataState E ID DB M))
    (c : Call ID U V C) (w : Stores DB M T) : error E × Stores DB M T :=
  match c with
  | .DataState_SyncGenesis b ts supply =>
    ((s.DataState.SyncGenesis b ts supply (w.db, w.metadata)).1,
     ⟨(s.DataState.SyncGenesis b ts supply (w.db, w.metadata)).2.1,
      (s.DataState.SyncGenesis b ts supply (w.db, w.metadata)).2.2, w.txs⟩)
  | .TxState_SyncGenesis us vs cs =>
    ((s.TxState.SyncGenesis us vs cs (w.db, w.metadata, w.txs)).1,
     ⟨(s.TxState.SyncGenesis us vs cs (w.db, w.metadata, w.txs)).2.1,
      (s.TxState.SyncGenesis us vs cs (w.db, w.metadata, w.txs)).2.2.1,
      (s.TxState.SyncGenesis us vs cs (w.db, w.metadata, w.txs)).2.2.2⟩)
  | .LoadMetadata =>
    ((s.DataState.LoadMetadata (w.db, w.metadata)).1,
     ⟨(s.DataState.LoadMetadata (w.db, w.metadata)).2.1,
      (s.DataState.LoadMetadata (w.db, w.metadata)).2.2, w.txs⟩)
  | .LoadTxs =>
    ((s.TxState.LoadTxs (w.db, w.metadata, w.txs)).1,
     ⟨(s.TxState.LoadTxs (w.db, w.metadata, w.txs)).2.1,
      (s.TxState.LoadTxs (w.db, w.metadata, w.txs)).2.2.1,
      (s.TxState.LoadTxs (w.db, w.metadata, w.txs)).2.2.2⟩)
  | .WriteMetadata =>
    ((s.DataState.WriteMetadata (w.db, w.metadata)).1,
     ⟨(s.DataState.WriteMetadata (w.db, w.metadata)).2.1,
      (s.DataState.WriteMetadata (w.db, w.metadata)).2.2, w.txs⟩)
  | .WriteTxs =>
    ((s.TxState.WriteTxs (w.db, w.metadata, w.txs)).1,
     ⟨(s.TxState.WriteTxs (w.db, w.metadata, w.txs)).2.1,
      (s.TxState.WriteTxs (w.db, w.metadata, w.txs)).2.2.1,
      (s.TxState.WriteTxs (w.db, w.metadata, w.txs)).2.2.2⟩)
  | .CloseTxs =>
    ((s.TxState.CloseTxs (w.db, w.metadata, w.txs)).1,
     ⟨(s.TxState.CloseTxs (w.db, w.metadata, w.txs)).2.1,
      (s.TxState.CloseTxs (w.db, w.metadata, w.txs)).2.2.1,
      (s.TxState.CloseTxs (w.db, w.metadata, w.txs)).2.2.2⟩)
  | .CloseMetadata =>
    ((s.DataState.CloseMetadata (w.db, w.metadata)).1,
     ⟨(s.DataState.CloseMetadata (w.db, w.metadata)).2.1,
      (s.DataState.CloseMetadata (w.db, w.metadata)).2.2, w.txs⟩)

/-- The listed sub-store calls made one after the other, each on the world the
previous one left: the results in order, and the final world. -/
def state.performSeq
    (s : state (transactions.TxState E U V C DB M T) (metadata.DataState E ID DB M)) :
    List (Call ID U V C) → Stores DB M T → List (error E) × Stores DB M T
  | [], w => ([], w)
  | c :: cs, w =>
    ((s.perform c w).1 :: (state.performSeq s cs (s.perform c w).2).1,
     (state.performSeq s cs (s.perform c w).2).2)

end SubStoreCalls

/-! ## Test doubles -/

namespace stub

/-- Error values used by the test doubles. -/
inductive Err where
  | ConstraintError
  | DuplicateMetric
  | StorageError
  deriving DecidableEq, Repr

/-- A metadata store that records the genesis triple it receives and never
fails. -/
def recordingData {E ID DB : Type} :
    metadata.DataState E ID DB (Option (ID × Nat × Nat)) where
  SyncGenesis := fun b ts supply x => (none, (x.1, some (b, ts, supply)))
  LoadMetadata := fun x => (none, x)
  WriteMetadata := fun x => (none, x)
  CloseMetadata := fun x => (none, x)

/-- A transactions store that records the genesis collections it receives and
never fails. -/
def recordingTx {E U V C DB M : Type} :
    transactions.TxState E U V C DB M (List U × List V × List C) where
  SyncGenesis := fun us vs cs x => (none, (x.1, x.2.1, (us, vs, cs)))
  LoadTxs := fun x => (none, x)
  WriteTxs := fun x => (none, x)
  CloseTxs := fun x => (none, x)

/-- A metadata store whose every method fails with `e` and changes nothing. -/
def failingData {E ID DB M : Type} (e : E) : metadata.DataState E ID DB M where
  SyncGenesis := fun _ _ _ x => (some e, x)
  LoadMetadata := fun x => (some e, x)
  WriteMetadata := fun x => (some e, x)
  CloseMetadata := fun x => (some e, x)

/-- A transactions store whose every method fails with `e` and changes
nothing. -/
def failingTx {E U V C DB M T : Type} (e : E) :
    transactions.TxState E U V C DB M T where
  SyncGenesis := fun _ _ _ x => (some e, x)
  LoadTxs := fun x => (some e, x)
  WriteTxs := fun x => (some e, x)
  CloseTxs := fun x => (some e, x)

/-- Metadata state of the recording double. -/
abbrev RecM := Option (Nat × Nat × Nat)

/-- Transactions state of the recording double. -/
abbrev RecT := List Nat × List Nat × List Nat

/-- Composite over two recording doubles. -/
def recording :
    state (transactions.TxState Err Nat Nat Nat Unit RecM RecT)
      (metadata.DataState Err Nat Unit RecM) :=
  ⟨recordingTx, recordingData⟩

/-- Composite whose metadata store always fails with `e`. -/
def metadataFails (e : Err) :
    state (transactions.TxState Err Nat Nat Nat Unit RecM RecT)
      (metadata.DataState Err Nat Unit RecM) :=
  ⟨recordingTx, failingData e⟩

/-- Composite whose transactions store always fails with `e`. -/
def txFails (e : Err) :
    state (transactions.TxState Err Nat Nat Nat Unit RecM RecT)
      (metadata.DataState Err Nat Unit RecM) :=
  ⟨failingTx e, recordingData⟩

/-- Empty base storage, nothing recorded yet. -/
def empty : Stores Unit RecM RecT := ⟨(), none, ([], [], [])⟩

/-- The genesis payload of the specification's scenario:
timestamp 1000, supply 1000000, one UTXO `u1 = 1`, one validator `v1 = 1`, no
sub-chains. -/
def scenarioGenesis : genesis.State Nat Nat Nat :=
  { UTXOs := [1], Validators := [1], Chains := [], Timestamp := 1000,
    InitialSupply := 1000000 }

/-- Constructors for a run in which metric registration fails: instances are
numbered from a counter, and the metered transactions constructor returns a
nil store together with `DuplicateMetric`. -/
def failingPackages :
    Packages Err Unit Unit Unit Unit Unit Unit Nat (Option Nat) Nat where
  metadata_NewState := fun _ h => (h, h + 1)
  transactions_NewState := fun _ _ _ _ _ _ _ h => (some h, h + 1)
  transactions_NewMeteredTransactionsState :=
    fun _ _ _ _ _ _ _ _ h => ((none, some .DuplicateMetric), h)

end stub

/-! ## Shape of one operation call -/

section Shape

variable {E ID U V C DB M T : Type}

/-- Every operation with a non-nil argument has exactly two halves, and a call
either stops after a failing first half, returning its error, or runs both
halves with the first one succeeding and returns what the second returned. -/
theorem exec_shape
    (s : state (transactions.TxState E U V C DB M T) (metadata.DataState E ID DB M))
    (op : Op ID U V C) (w : Stores DB M T) (hn : op.nonNil = true) :
    ∃ c1 c2, op.halves = [c1, c2] ∧ c1 ≠ c2 ∧
      ((∃ e, (s.exec op w).out = .returned (some e) ∧
          (s.exec op w).trace = [⟨c1, some e⟩]) ∨
       (∃ r, (s.exec op w).out = .returned r ∧
          (s.exec op w).trace = [⟨c1, none⟩, ⟨c2, r⟩])) := by
  cases op with
  | SyncGenesis b g =>
    cases g with
    | none => simp [Op.nonNil] at hn
    | some g =>
      refine ⟨_, _, rfl, by simp, ?_⟩
      simp only [state.exec, state.SyncGenesis, invokeData, invokeTx]
      cases h : (s.DataState.SyncGenesis b g.Timestamp g.InitialSupply (w.db, w.metadata)).1 with
      | none => exact Or.inr ⟨_, rfl, rfl⟩
      | some e => exact Or.inl ⟨e, rfl, rfl⟩
  | Load =>
    refine ⟨_, _, rfl, by simp, ?_⟩
    simp only [state.exec, state.Load, invokeData, invokeTx]
    cases h : (s.DataState.LoadMetadata (w.db, w.metadata)).1 with
    | none => exact Or.inr ⟨_, rfl, rfl⟩
    | some e => exact Or.inl ⟨e, rfl, rfl⟩
  | Write =>
    refine ⟨_, _, rfl, by simp, ?_⟩
    simp only [state.exec, state.Write, invokeData, invokeTx]
    cases h : (s.DataState.WriteMetadata (w.db, w.metadata)).1 with
    | none => exact Or.inr ⟨_, rfl, rfl⟩
    | some e => exact Or.inl ⟨e, rfl, rfl⟩
  | Close =>
    refine ⟨_, _, rfl, by simp, ?_⟩
    simp only [state.exec, state.Close, invokeData, invokeTx]
    cases h : (s.TxState.CloseTxs (w.db, w.metadata, w.txs)).1 with
    | none => exact Or.inr ⟨_, rfl, rfl⟩
    | some e => exact Or.inl ⟨e, rfl, rfl⟩

/-- A call none of whose sub-store invocations failed ran both halves in order
and returned nil. -/
theorem exec_no_failure
    (s : state (transactions.TxState E U V C DB M T) (metadata.DataState E ID DB M))
    (op : Op ID U V C) (w : Stores DB M T) (hn : op.nonNil = true)
    (hok : ∀ ev ∈ (s.exec op w).trace, ev.err = none) :
    (s.exec op w).trace.map Event.call = op.halves ∧
      (s.exec op w).out = .returned none := by
  obtain ⟨c1, c2, hh, -, hcase⟩ := exec_shape s op w hn
  rcases hcase with ⟨e, -, ht⟩ | ⟨r, ho, ht⟩
  · have := hok ⟨c1, some e⟩ (by simp [ht])
    simp at this
  · have hr : r = none := hok ⟨c2, r⟩ (by simp [ht])
    subst hr
    exact ⟨by simp [ht, hh], ho⟩

/-- One operation call in terms of the sub-stores' own behaviour: with `c1`,
`c2` the operation's halves, the call makes `c1`; if `c1` fails it returns that
error and leaves the world as `c1` left it; otherwise it makes `c2` on that
world, returns what `c2` returned and leaves the world as `c2` left it. -/
theorem exec_eq
    (s : state (transactions.TxState E U V C DB M T) (metadata.DataState E ID DB M))
    (op : Op ID U V C) (w : Stores DB M T) (c1 c2 : Call ID U V C)
    (hh : op.halves = [c1, c2]) :
    (∀ e, (s.perform c1 w).1 = some e →
      s.exec op w =
        ⟨.returned (some e), [⟨c1, some e⟩], (s.perform c1 w).2⟩) ∧
    ((s.perform c1 w).1 = none →
      s.exec op w =
        ⟨.returned (s.perform c2 (s.perform c1 w).2).1,
         [⟨c1, none⟩, ⟨c2, (s.perform c2 (s.perform c1 w).2).1⟩],
         (s.perform c2 (s.perform c1 w).2).2⟩) := by
  cases op with
  | SyncGenesis b g =>
    cases g with
    | none => simp [Op.halves] at hh
    | some g =>
      simp only [Op.halves, List.cons.injEq, and_true] at hh
      obtain ⟨rfl, rfl⟩ := hh
      constructor
      · intro e he
        simp only [state.perform] at he
        simp [state.exec, state.SyncGenesis, invokeData, state.perform, he]
      · intro he
        simp only [state.perform] at he
        simp [state.exec, state.SyncGenesis, invokeData, invokeTx, state.perform, he]
  | Load =>
    simp only [Op.halves, List.cons.injEq, and_true] at hh
    obtain ⟨rfl, rfl⟩ := hh
    constructor
    · intro e he
      simp only [state.perform] at he
      simp [state.exec, state.Load, invokeData, state.perform, he]
    · intro he
      simp only [state.perform] at he
      simp [state.exec, state.Load, invokeData, invokeTx, state.perform, he]
  | Write =>
    simp only [Op.halves, List.cons.injEq, and_true] at hh
    obtain ⟨rfl, rfl⟩ := hh
    constructor
    · intro e he
      simp only [state.perform] at he
      simp [state.exec, state.Write, invokeData, state.perform, he]
    · intro he
      simp only [state.perform] at he
      simp [state.exec, state.Write, invokeData, invokeTx, state.perform, he]
  | Close =>
    simp only [Op.halves, List.cons.injEq, and_true] at hh
    obtain ⟨rfl, rfl⟩ := hh
    constructor
    · intro e he
      simp only [state.perform] at he
      simp [state.exec, state.Close, invokeTx, state.perform, he]
    · intro he
      simp only [state.perform] at he
      simp [state.exec, state.Close, invokeData, invokeTx, state.perform, he]

end Shape

/-! ## Fail-fast and ordering of the four operations -/

section Lifecycle

variable {E ID U V C DB M T : Type}

/-- C1: for every genesis block id, every non-nil genesis state and every error
`e`, if the metadata store's `SyncGenesis` returns `e` then the composite's
`SyncGenesis` returns exactly `e`, its only sub-store call is that metadata
call (the transactions store's `SyncGenesis` is invoked zero times), and the
transactions store's state is unchanged. -/
theorem SyncGenesis_metadata_failure
    (s : state (transactions.TxState E U V C DB M T) (metadata.DataState E ID DB M))
    (genesisBlkID : ID) (g : genesis.State U V C) (w : Stores DB M T) (e : E)
    (h : (s.DataState.SyncGenesis genesisBlkID g.Timestamp g.InitialSupply
            (w.db, w.metadata)).1 = some e) :
    (s.SyncGenesis genesisBlkID (some g) w).out = .returned (some e) ∧
    (s.SyncGenesis genesisBlkID (some g) w).trace =
      [⟨.DataState_SyncGenesis genesisBlkID g.Timestamp g.InitialSupply, some e⟩] ∧
    (s.SyncGenesis genesisBlkID (some g) w).trace.countP
      (fun ev => ev.call.isTxSync) = 0 ∧
    (s.SyncGenesis genesisBlkID (some g) w).stores.txs = w.txs := by
  simp [state.SyncGenesis, invokeData, h, Call.isTxSync]

/-- Witness of C1: a metadata store failing with `ConstraintError`. -/
theorem SyncGenesis_metadata_failure_witness :
    ((stub.metadataFails .ConstraintError).SyncGenesis 1
        (some stub.scenarioGenesis) stub.empty).out
      = .returned (some .ConstraintError) ∧
    ((stub.metadataFails .ConstraintError).SyncGenesis 1
        (some stub.scenarioGenesis) stub.empty).trace
      = [⟨.DataState_SyncGenesis 1 1000 1000000, some .ConstraintError⟩] ∧
    ((stub.metadataFails .ConstraintError).SyncGenesis 1
        (some stub.scenarioGenesis) stub.empty).trace.countP
      (fun ev => ev.call.isTxSync) = 0 ∧
    ((stub.metadataFails .ConstraintError).SyncGenesis 1
        (some stub.scenarioGenesis) stub.empty).stores.txs = ([], [], []) :=
  SyncGenesis_metadata_failure (stub.metadataFails .ConstraintError) 1
    stub.scenarioGenesis stub.empty .ConstraintError rfl

/-- C2: for `Load` and for `Write`, if the metadata half (`LoadMetadata`,
respectively `WriteMetadata`) returns error `e`, the composite operation
returns exactly `e` and its only sub-store call is that metadata call: the
transactions half (`LoadTxs`, respectively `WriteTxs`) is never invoked. -/
theorem Load_Write_metadata_failure
    (s : state (transactions.TxState E U V C DB M T) (metadata.DataState E ID DB M))
    (w : Stores DB M T) (e : E) :
    ((s.DataState.LoadMetadata (w.db, w.metadata)).1 = some e →
      (s.Load w).out = .returned (some e) ∧
      (s.Load w).trace = [⟨.LoadMetadata, some e⟩] ∧
      (s.Load w).stores.txs = w.txs) ∧
    ((s.DataState.WriteMetadata (w.db, w.metadata)).1 = some e →
      (s.Write w).out = .returned (some e) ∧
      (s.Write w).trace = [⟨.WriteMetadata, some e⟩] ∧
      (s.Write w).stores.txs = w.txs) := by
  constructor
  · intro h
    simp [state.Load, invokeData, h]
  · intro h
    simp [state.Write, invokeData, h]

/-- Witness of C2: a metadata store failing with `StorageError`. -/
theorem Load_Write_metadata_failure_witness :
    (((stub.metadataFails .StorageError).Load stub.empty).out
        = .returned (some .StorageError) ∧
      ((stub.metadataFails .StorageError).Load stub.empty).trace
        = [⟨.LoadMetadata, some .StorageError⟩] ∧
      ((stub.metadataFails .StorageError).Load stub.empty).stores.txs
        = ([], [], [])) ∧
    (((stub.metadataFails .StorageError).Write stub.empty).out
        = .returned (some .StorageError) ∧
      ((stub.metadataFails .StorageError).Write stub.empty).trace
        = [⟨.WriteMetadata, some .StorageError⟩] ∧
      ((stub.metadataFails .StorageError).Write stub.empty).stores.txs
        = ([], [], [])) :=
  ⟨(Load_Write_metadata_failure (stub.metadataFails .StorageError) stub.empty
      .StorageError).1 rfl,
   (Load_Write_metadata_failure (stub.metadataFails .StorageError) stub.empty
      .StorageError).2 rfl⟩

/-- C3: if `CloseTxs` returns error `e`, the composite's `Close` returns exactly
`e` and its only sub-store call is `CloseTxs`: `CloseMetadata` is never
invoked, and the world is left as `CloseTxs` left it. -/
theorem Close_txs_failure
    (s : state (transactions.TxState E U V C DB M T) (metadata.DataState E ID DB M))
    (w : Stores DB M T) (e : E)
    (h : (s.TxState.CloseTxs (w.db, w.metadata, w.txs)).1 = some e) :
    (s.Close w).out = .returned (some e) ∧
    (s.Close w).trace = [⟨.CloseTxs, some e⟩] ∧
    (∀ ev ∈ (s.Close w).trace, ev.call ≠ .CloseMetadata) ∧
    (s.Close w).stores =
      ⟨(s.TxState.CloseTxs (w.db, w.metadata, w.txs)).2.1,
       (s.TxState.CloseTxs (w.db, w.metadata, w.txs)).2.2.1,
       (s.TxState.CloseTxs (w.db, w.metadata, w.txs)).2.2.2⟩ := by
  simp [state.Close, invokeTx, h]

/-- Witness of C3: a transactions store failing with `StorageError`. -/
theorem Close_txs_failure_witness :
    ((stub.txFails .StorageError).Close stub.empty).out
      = .returned (some .StorageError) ∧
    ((stub.txFails .StorageError).Close stub.empty).trace
      = [⟨.CloseTxs, some .StorageError⟩] ∧
    (∀ ev ∈ ((stub.txFails .StorageError).Close stub.empty).trace,
      ev.call ≠ .CloseMetadata) ∧
    ((stub.txFails .StorageError).Close stub.empty).stores = stub.empty :=
  Close_txs_failure (stub.txFails .StorageError) stub.empty .StorageError rfl

/-- C4: when none of the six sub-store operations `LoadMetadata`, `LoadTxs`,
`WriteMetadata`, `WriteTxs`, `CloseTxs`, `CloseMetadata`, each applied to the
world the previous one left, fails, then `Load`, `Write`, `Close` called in
turn make exactly those six sub-store calls in that order (metadata before
transactions in `Load` and `Write`, transactions before metadata in `Close`),
all three calls return nil, and the world they leave is the one the six
sub-store operations produce in that order. -/
theorem Load_Write_Close_order
    (s : state (transactions.TxState E U V C DB M T) (metadata.DataState E ID DB M))
    (w : Stores DB M T)
    (hok : ∀ r ∈ (s.performSeq
        [.LoadMetadata, .LoadTxs, .WriteMetadata, .WriteTxs, .CloseTxs,
          .CloseMetadata] w).1, r = none) :
    s.run [.Load, .Write, .Close] w =
      ([⟨.Load, .returned none, [⟨.LoadMetadata, none⟩, ⟨.LoadTxs, none⟩]⟩,
        ⟨.Write, .returned none, [⟨.WriteMetadata, none⟩, ⟨.WriteTxs, none⟩]⟩,
        ⟨.Close, .returned none, [⟨.CloseTxs, none⟩, ⟨.CloseMetadata, none⟩]⟩],
       (s.performSeq
        [.LoadMetadata, .LoadTxs, .WriteMetadata, .WriteTxs, .CloseTxs,
          .CloseMetadata] w).2) ∧
    calls (s.run [.Load, .Write, .Close] w).1 =
      [.LoadMetadata, .LoadTxs, .WriteMetadata, .WriteTxs, .CloseTxs,
       .CloseMetadata] ∧
    (s.run [.Load, .Write, .Close] w).1.map Step.out =
      [.returned none, .returned none, .returned none] := by
  simp only [state.performSeq, List.mem_cons, List.not_mem_nil, or_false,
    forall_eq_or_imp, forall_eq] at hok
  obtain ⟨h1, h2, h3, h4, h5, h6⟩ := hok
  have hL := (exec_eq s .Load w _ _ rfl).2 h1
  rw [h2] at hL
  have hW := (exec_eq s .Write (s.perform .LoadTxs (s.perform .LoadMetadata w).2).2
    _ _ rfl).2 h3
  rw [h4] at hW
  have hC := (exec_eq s .Close
    (s.perform .WriteTxs (s.perform .WriteMetadata
      (s.perform .LoadTxs (s.perform .LoadMetadata w).2).2).2).2 _ _ rfl).2 h5
  rw [h6] at hC
  have hrun : s.run [.Load, .Write, .Close] w =
      ([⟨.Load, .returned none, [⟨.LoadMetadata, none⟩, ⟨.LoadTxs, none⟩]⟩,
        ⟨.Write, .returned none, [⟨.WriteMetadata, none⟩, ⟨.WriteTxs, none⟩]⟩,
        ⟨.Close, .returned none, [⟨.CloseTxs, none⟩, ⟨.CloseMetadata, none⟩]⟩],
       (s.performSeq
        [.LoadMetadata, .LoadTxs, .WriteMetadata, .WriteTxs, .CloseTxs,
          .CloseMetadata] w).2) := by
    simp only [state.run, hL, hW, hC, state.performSeq]
  refine ⟨hrun, ?_, ?_⟩
  · rw [hrun]; rfl
  · rw [hrun]; rfl

/-- Witness of C4: two recording stores, which never fail. -/
theorem Load_Write_Close_order_witness :
    stub.recording.run [.Load, .Write, .Close] stub.empty =
      ([⟨.Load, .returned none, [⟨.LoadMetadata, none⟩, ⟨.LoadTxs, none⟩]⟩,
        ⟨.Write, .returned none, [⟨.WriteMetadata, none⟩, ⟨.WriteTxs, none⟩]⟩,
        ⟨.Close, .returned none, [⟨.CloseTxs, none⟩, ⟨.CloseMetadata, none⟩]⟩],
       stub.empty) ∧
    calls (stub.recording.run [.Load, .Write, .Close] stub.empty).1 =
      [.LoadMetadata, .LoadTxs, .WriteMetadata, .WriteTxs, .CloseTxs,
       .CloseMetadata] ∧
    (stub.recording.run [.Load, .Write, .Close] stub.empty).1.map Step.out =
      [.returned none, .returned none, .returned none] :=
  Load_Write_Close_order stub.recording stub.empty (by decide)

/-- C6, as amended: for each of `SyncGenesis` called with a non-nil genesis
state, `Load`, `Write` and `Close`, and whatever the two sub-stores do, with
`c1` then `c2` the operation's two distinct halves in its order: the operation
returns nil exactly when `c1` returns nil and `c2`, made on the world `c1`
left, returns nil; if `c1` fails with `e` the operation returns `e`, makes no
other call and leaves the world as `c1` left it; if `c1` succeeds the operation
makes `c2` once on the world `c1` left, returns unchanged what `c2` returned and
leaves the world as `c2` left it.  Hence a non-nil result is the error of the
last call made, every earlier call having succeeded; the calls made are an
initial segment of the two halves with no call repeated, so no half is retried
and no other sub-store method is invoked; and the operation does not panic. -/
theorem exec_first_error
    (s : state (transactions.TxState E U V C DB M T) (metadata.DataState E ID DB M))
    (op : Op ID U V C) (w : Stores DB M T) (hn : op.nonNil = true) :
    (∃ c1 c2, op.halves = [c1, c2] ∧ c1 ≠ c2 ∧
      ((s.exec op w).out = .returned none ↔
        ((s.perform c1 w).1 = none ∧
          (s.perform c2 (s.perform c1 w).2).1 = none)) ∧
      (∀ e, (s.perform c1 w).1 = some e →
        s.exec op w =
          ⟨.returned (some e), [⟨c1, some e⟩], (s.perform c1 w).2⟩) ∧
      ((s.perform c1 w).1 = none →
        s.exec op w =
          ⟨.returned (s.perform c2 (s.perform c1 w).2).1,
           [⟨c1, none⟩, ⟨c2, (s.perform c2 (s.perform c1 w).2).1⟩],
           (s.perform c2 (s.perform c1 w).2).2⟩)) ∧
    ((s.exec op w).out = .returned none ↔
      ((s.exec op w).trace.map Event.call = op.halves ∧
        ∀ ev ∈ (s.exec op w).trace, ev.err = none)) ∧
    (∀ e, (s.exec op w).out = .returned (some e) →
      ∃ pre c, (s.exec op w).trace = pre ++ [⟨c, some e⟩] ∧
        ∀ ev ∈ pre, ev.err = none) ∧
    ((s.exec op w).trace.map Event.call <+: op.halves) ∧
    ((s.exec op w).trace.map Event.call).Nodup ∧
    (s.exec op w).out ≠ .panicked := by
  obtain ⟨c1, c2, hh, hne, hcase⟩ := exec_shape s op w hn
  obtain ⟨hfail, hsucc⟩ := exec_eq s op w c1 c2 hh
  refine ⟨⟨c1, c2, hh, hne, ?_, hfail, hsucc⟩, ?_⟩
  · cases h1 : (s.perform c1 w).1 with
    | some e => simp [hfail e h1]
    | none => simp [hsucc h1]
  rcases hcase with ⟨e, ho, ht⟩ | ⟨r, ho, ht⟩
  · refine ⟨?_, ?_, ?_, ?_, ?_⟩
    · simp [ho, ht]
    · intro e1 he1
      rw [ho] at he1
      cases he1
      exact ⟨[], c1, by simp [ht], by simp⟩
    · rw [ht, hh]
      exact ⟨[c2], rfl⟩
    · simp [ht]
    · simp [ho]
  · refine ⟨?_, ?_, ?_, ?_, ?_⟩
    · simp [ho, ht, hh]
    · intro e1 he1
      rw [ho] at he1
      cases he1
      exact ⟨[⟨c1, none⟩], c2, by simp [ht], by simp⟩
    · rw [ht, hh]
      exact ⟨[], rfl⟩
    · simp [ht, hne]
    · simp [ho]

/-- Witness of C6 as amended: a genesis sync with a non-nil payload on a
composite whose transactions store fails; the metadata half succeeds and
records the genesis triple, the transactions half is made on that world, and
its `ConstraintError` comes back unchanged. -/
theorem exec_first_error_witness :
    (stub.txFails .ConstraintError).exec
        (.SyncGenesis 1 (some stub.scenarioGenesis)) stub.empty =
      ⟨.returned (some .ConstraintError),
       [⟨.DataState_SyncGenesis 1 1000 1000000, none⟩,
        ⟨.TxState_SyncGenesis [1] [1] [], some .ConstraintError⟩],
       ⟨(), some (1, 1000, 1000000), ([], [], [])⟩⟩ := by
  obtain ⟨c1, c2, hh, -, -, -, hsucc⟩ :=
    (exec_first_error (stub.txFails .ConstraintError)
      (.SyncGenesis 1 (some stub.scenarioGenesis)) stub.empty rfl).1
  simp only [Op.halves, List.cons.injEq, and_true] at hh
  obtain ⟨rfl, rfl⟩ := hh
  exact hsucc rfl

/-- Counterexample to C6 as stated: `SyncGenesis` called with a nil genesis
state invokes neither half and panics, so it returns neither nil nor any
sub-store's error. -/
theorem SyncGenesis_nil_payload_panics :
    (stub.recording.exec (.SyncGenesis 1 none) stub.empty).out = .panicked ∧
    (stub.recording.exec (.SyncGenesis 1 none) stub.empty).trace = [] ∧
    ¬ ∃ err, (stub.recording.exec (.SyncGenesis 1 none) stub.empty).out
        = .returned err := by
  refine ⟨rfl, rfl, ?_⟩
  rintro ⟨err, h⟩
  cases h

end Lifecycle

/-! ## Construction -/

section ConstructionFacts

variable {E DB Reg Cfg Ctx Gauge Calc H TxS DS : Type}

/-- C7: for every input, the error `NewMetered` returns is the error returned
by `transactions.NewMeteredTransactionsState` (called on the base database and
the metadata store just built); so `NewMetered` returns a non-nil error exactly
when that constructor does, and it always returns rather than panics: the
failure reaches the caller as the second return value. -/
theorem NewMetered_error
    (pkg : Packages E DB Reg Cfg Ctx Gauge Calc H TxS DS)
    (baseDB : DB) (metrics : Reg) (cfg : Cfg) (ctx : Ctx)
    (localStake totalStake : Gauge) (rewards : Calc) (h : H) :
    (NewMetered pkg baseDB metrics cfg ctx localStake totalStake rewards h).1.2 =
      (pkg.transactions_NewMeteredTransactionsState baseDB
        (pkg.metadata_NewState baseDB h).1 metrics cfg ctx localStake totalStake
        rewards (pkg.metadata_NewState baseDB h).2).1.2 ∧
    ((NewMetered pkg baseDB metrics cfg ctx localStake totalStake rewards h).1.2
        ≠ none ↔
      (pkg.transactions_NewMeteredTransactionsState baseDB
        (pkg.metadata_NewState baseDB h).1 metrics cfg ctx localStake totalStake
        rewards (pkg.metadata_NewState baseDB h).2).1.2 ≠ none) :=
  ⟨rfl, Iff.rfl⟩

/-- C8: in `New` and in `NewMetered`, the metadata store is built first, over
the supplied base database; the transactions store is built next, in the
process state the metadata constructor left, over the same base database and
with the metadata store instance built in this call; the returned composite is
non-nil, its `DataState` is that metadata store instance and its `TxState` is
the transactions store just built. -/
theorem New_NewMetered_wiring
    (pkg : Packages E DB Reg Cfg Ctx Gauge Calc H TxS DS)
    (baseDB : DB) (metrics : Reg) (cfg : Cfg) (ctx : Ctx)
    (localStake totalStake : Gauge) (rewards : Calc) (h : H) :
    (New pkg baseDB cfg ctx localStake totalStake rewards h).1 =
      some
        { DataState := (pkg.metadata_NewState baseDB h).1
          TxState :=
            (pkg.transactions_NewState baseDB (pkg.metadata_NewState baseDB h).1
              cfg ctx localStake totalStake rewards
              (pkg.metadata_NewState baseDB h).2).1 } ∧
    (New pkg baseDB cfg ctx localStake totalStake rewards h).2 =
      (pkg.transactions_NewState baseDB (pkg.metadata_NewState baseDB h).1
        cfg ctx localStake totalStake rewards
        (pkg.metadata_NewState baseDB h).2).2 ∧
    (NewMetered pkg baseDB metrics cfg ctx localStake totalStake rewards h).1.1 =
      some
        { DataState := (pkg.metadata_NewState baseDB h).1
          TxState :=
            (pkg.transactions_NewMeteredTransactionsState baseDB
              (pkg.metadata_NewState baseDB h).1 metrics cfg ctx localStake
              totalStake rewards (pkg.metadata_NewState baseDB h).2).1.1 } ∧
    (NewMetered pkg baseDB metrics cfg ctx localStake totalStake rewards h).2 =
      (pkg.transactions_NewMeteredTransactionsState baseDB
        (pkg.metadata_NewState baseDB h).1 metrics cfg ctx localStake
        totalStake rewards (pkg.metadata_NewState baseDB h).2).2 :=
  ⟨rfl, rfl, rfl, rfl⟩

/-- C10: when the metered transactions constructor fails with `e`, `NewMetered`
returns `e` together with a non-nil composite whose `DataState` is the freshly
built metadata store and whose `TxState` is whatever the failing constructor
returned; the returned `State` is not nil. -/
theorem NewMetered_failure_returns_composite
    (pkg : Packages E DB Reg Cfg Ctx Gauge Calc H TxS DS)
    (baseDB : DB) (metrics : Reg) (cfg : Cfg) (ctx : Ctx)
    (localStake totalStake : Gauge) (rewards : Calc) (h : H) (e : E)
    (hfail :
      (pkg.transactions_NewMeteredTransactionsState baseDB
        (pkg.metadata_NewState baseDB h).1 metrics cfg ctx localStake totalStake
        rewards (pkg.metadata_NewState baseDB h).2).1.2 = some e) :
    (NewMetered pkg baseDB metrics cfg ctx localStake totalStake rewards h).1 =
      (some
        { DataState := (pkg.metadata_NewState baseDB h).1
          TxState :=
            (pkg.transactions_NewMeteredTransactionsState baseDB
              (pkg.metadata_NewState baseDB h).1 metrics cfg ctx localStake
              totalStake rewards (pkg.metadata_NewState baseDB h).2).1.1 },
       some e) ∧
    (NewMetered pkg baseDB metrics cfg ctx localStake totalStake rewards h).1.1
      ≠ none := by
  refine ⟨?_, by simp [NewMetered]⟩
  simp [NewMetered, Prod.ext_iff, hfail]

/-- Witness of C10: metric registration fails with `DuplicateMetric` and the
constructor hands back a nil transactions store; the composite still comes
back, holding metadata instance 0 and the nil transactions store. -/
theorem NewMetered_failure_returns_composite_witness :
    (NewMetered stub.failingPackages () () () () () () () 0).1 =
      (some { DataState := 0, TxState := none }, some .DuplicateMetric) ∧
    (NewMetered stub.failingPackages () () () () () () () 0).1.1 ≠ none :=
  NewMetered_failure_returns_composite stub.failingPackages () () () () () () ()
    0 .DuplicateMetric rfl

end ConstructionFacts

/-! ## Genesis synchronization over a history of calls -/

section History

variable {E ID U V C DB M T : Type}

/-- Every call of the composite is bounded in the sense above. -/
theorem exec_bounded
    (s : state (transactions.TxState E U V C DB M T) (metadata.DataState E ID DB M))
    (op : Op ID U V C) (w : Stores DB M T) :
    Step.bounded ⟨op, (s.exec op w).out, (s.exec op w).trace⟩ := by
  cases op with
  | SyncGenesis b g =>
    cases g with
    | none =>
      simp [Step.bounded, state.exec, state.SyncGenesis, Op.isSyncGenesis]
    | some g =>
      simp only [Step.bounded, state.exec, state.SyncGenesis, invokeData, invokeTx]
      cases h : (s.DataState.SyncGenesis b g.Timestamp g.InitialSupply (w.db, w.metadata)).1 <;>
        simp [Op.isSyncGenesis, Call.isDataSync, Call.isTxSync, List.countP_cons]
  | Load =>
    simp only [Step.bounded, state.exec, state.Load, invokeData, invokeTx]
    cases h : (s.DataState.LoadMetadata (w.db, w.metadata)).1 <;>
      simp [Op.isSyncGenesis, Call.isDataSync, Call.isTxSync, List.countP_cons,
        Step.performsGenesisSync]
  | Write =>
    simp only [Step.bounded, state.exec, state.Write, invokeData, invokeTx]
    cases h : (s.DataState.WriteMetadata (w.db, w.metadata)).1 <;>
      simp [Op.isSyncGenesis, Call.isDataSync, Call.isTxSync, List.countP_cons,
        Step.performsGenesisSync]
  | Close =>
    simp only [Step.bounded, state.exec, state.Close, invokeData, invokeTx]
    cases h : (s.TxState.CloseTxs (w.db, w.metadata, w.txs)).1 <;>
      simp [Op.isSyncGenesis, Call.isDataSync, Call.isTxSync, List.countP_cons,
        Step.performsGenesisSync]

/-- Every step of every history is bounded. -/
theorem run_bounded
    (s : state (transactions.TxState E U V C DB M T) (metadata.DataState E ID DB M))
    (ops : List (Op ID U V C)) :
    ∀ (w : Stores DB M T), ∀ st ∈ (s.run ops w).1, Step.bounded st := by
  induction ops with
  | nil => intro w st hst; simp [state.run] at hst
  | cons op ops ih =>
    intro w st hst
    simp only [state.run, List.mem_cons] at hst
    rcases hst with rfl | hst
    · exact exec_bounded s op w
    · exact ih _ st hst

/-- The metadata store is synced from genesis no more often than the caller
asked for it. -/
theorem dataSyncs_le_callerSyncs (h : List (Step E ID U V C))
    (hb : ∀ st ∈ h, Step.bounded st) : dataSyncs h ≤ callerSyncs h := by
  induction h with
  | nil => simp [dataSyncs, callerSyncs]
  | cons st rest ih =>
    have h1 := (hb st (List.mem_cons_self _ _)).1
    have h2 : dataSyncs rest ≤ callerSyncs rest :=
      ih fun x hx => hb x (List.mem_cons_of_mem _ hx)
    have e1 : dataSyncs (st :: rest) =
        st.trace.countP (fun ev => ev.call.isDataSync) + dataSyncs rest := by
      simp [dataSyncs]
    have e2 : callerSyncs (st :: rest) =
        callerSyncs rest + (if st.op.isSyncGenesis then 1 else 0) := by
      simp [callerSyncs, List.countP_cons]
    rw [e1, e2]
    have := Nat.add_le_add h1 h2
    omega

/-- The transactions store is synced from genesis no more often than the
caller asked for it. -/
theorem txSyncs_le_callerSyncs (h : List (Step E ID U V C))
    (hb : ∀ st ∈ h, Step.bounded st) : txSyncs h ≤ callerSyncs h := by
  induction h with
  | nil => simp [txSyncs, callerSyncs]
  | cons st rest ih =>
    have h1 := (hb st (List.mem_cons_self _ _)).2.1
    have h2 : txSyncs rest ≤ callerSyncs rest :=
      ih fun x hx => hb x (List.mem_cons_of_mem _ hx)
    have e1 : txSyncs (st :: rest) =
        st.trace.countP (fun ev => ev.call.isTxSync) + txSyncs rest := by
      simp [txSyncs]
    have e2 : callerSyncs (st :: rest) =
        callerSyncs rest + (if st.op.isSyncGenesis then 1 else 0) := by
      simp [callerSyncs, List.countP_cons]
    rw [e1, e2]
    have := Nat.add_le_add h1 h2
    omega

/-- Sub-store genesis syncs happen only inside `SyncGenesis` calls, so a caller
who issues none after a successful `Load` sees none performed after it. -/
theorem noSyncAfterLoad_of_caller (h : List (Step E ID U V C))
    (hb : ∀ st ∈ h, Step.bounded st) (hc : noSyncCallAfterLoad h = true) :
    noSyncAfterLoad h = true := by
  induction h with
  | nil => rfl
  | cons st rest ih =>
    simp only [noSyncCallAfterLoad, Bool.and_eq_true, Bool.or_eq_true,
      Bool.not_eq_true', List.all_eq_true] at hc
    simp only [noSyncAfterLoad, Bool.and_eq_true, Bool.or_eq_true,
      Bool.not_eq_true', List.all_eq_true]
    refine ⟨?_, ih (fun x hx => hb x (List.mem_cons_of_mem _ hx)) hc.2⟩
    rcases hc.1 with hl | hall
    · exact Or.inl hl
    · refine Or.inr fun later hlater => ?_
      have hb2 := (hb later (List.mem_cons_of_mem _ hlater)).2.2
      have := hall later hlater
      cases hp : later.performsGenesisSync with
      | false => rfl
      | true => simp [hb2 hp] at this

/-- C9, as amended: the composite has no guard of its own, and I1 holds over
every sequence of operation calls in which the caller issues `SyncGenesis` at
most once and never after a `Load` that succeeded: then each sub-store's
genesis sync is performed at most once, and never after a successful `Load`. -/
theorem I1_of_caller_discipline
    (s : state (transactions.TxState E U V C DB M T) (metadata.DataState E ID DB M))
    (ops : List (Op ID U V C)) (w : Stores DB M T)
    (honce : callerSyncs (s.run ops w).1 ≤ 1)
    (hcold : noSyncCallAfterLoad (s.run ops w).1 = true) :
    I1 (s.run ops w).1 = true := by
  have hb := run_bounded s ops w
  have h1 := dataSyncs_le_callerSyncs _ hb
  have h2 := txSyncs_le_callerSyncs _ hb
  have h3 := noSyncAfterLoad_of_caller _ hb hcold
  simp only [I1, Bool.and_eq_true, decide_eq_true_eq]
  exact ⟨⟨by omega, by omega⟩, h3⟩

/-- Witness of C9 as amended: one cold-start genesis sync, then write and
close. -/
theorem I1_of_caller_discipline_witness :
    I1 (stub.recording.run
      [.SyncGenesis 1 (some stub.scenarioGenesis), .Write, .Close] stub.empty).1
      = true :=
  I1_of_caller_discipline stub.recording
    [.SyncGenesis 1 (some stub.scenarioGenesis), .Write, .Close] stub.empty
    (by decide) (by decide)

/-- Counterexample to C9 as stated: on one composite, a second `SyncGenesis`
call runs both sub-stores' genesis sync a second time, and a `SyncGenesis`
issued after a successful `Load` runs them as well; I1 fails on both
histories. -/
theorem I1_not_enforced :
    I1 (stub.recording.run
        [.SyncGenesis 1 (some stub.scenarioGenesis),
         .SyncGenesis 1 (some stub.scenarioGenesis)] stub.empty).1 = false ∧
    dataSyncs (stub.recording.run
        [.SyncGenesis 1 (some stub.scenarioGenesis),
         .SyncGenesis 1 (some stub.scenarioGenesis)] stub.empty).1 = 2 ∧
    (stub.recording.run
        [.Load, .SyncGenesis 1 (some stub.scenarioGenesis)] stub.empty).1.map
      Step.out = [.returned none, .returned none] ∧
    I1 (stub.recording.run
        [.Load, .SyncGenesis 1 (some stub.scenarioGenesis)] stub.empty).1
      = false := by
  decide

end History

end platformvm
